import Mathlib

/-!
Verification of the lazy-initialization and streaming-invocation lifecycle
of `src/agentcore/my_agent.py`.

The module holds two globals, `agent` and `mcp_context_manager`, both
initially `None`.  `initialize_agent` performs a check-then-construct
sequence: if `agent is None` it enters the MCP client context
(`stdio_mcp_client.__enter__()`, the tool-provider connect), enumerates
tools (`list_tools_sync`), builds the `Agent`, and stores it; otherwise it
returns the stored agent.  The entrypoint `invoke` lazily initializes,
extracts `payload.get("prompt", <fallback>)`, streams the agent's output
and relays only units containing an `"event"` key.  On shutdown the
`__main__` block exits the MCP context iff `mcp_context_manager` is set.

The MCP client itself is external library code; its connect / list-tools /
release operations are modelled from the specification's ToolProviderHandle
contract: a successful connect allocates a fresh OS-level resource that
stays allocated until explicitly released, a failed connect allocates
nothing, and release is idempotent.  The outcome of the two external calls
in one construction attempt is an explicit parameter `InitOutcome`.

Since the Python `initialize_agent` is a synchronous function containing no
`await`, it runs atomically under the host's cooperative (event-loop)
scheduling; concurrent first-time invocations therefore serialize into
some order of whole calls, modelled by folding `initialize_agent` over a
schedule of call outcomes.
-/

/-- Result of the two external calls made inside one construction attempt:
the tool-provider connect (`stdio_mcp_client.__enter__()`) and the tool
enumeration (`list_tools_sync`).  `connectFail`: the connect raises (no
resource allocated).  `listFail`: the connect succeeds but the enumeration
raises.  `ok`: both succeed. -/
inductive InitOutcome where
  | connectFail
  | listFail
  | ok
deriving DecidableEq, Repr

/-- Errors surfaced by a failed construction attempt, per the spec's error
taxonomy. -/
inductive InitError where
  | providerUnavailable
  | protocolError
deriving DecidableEq, Repr

/-- The module-level mutable state of `my_agent.py` together with the
observable footprint of the external tool provider.

`agent` and `mcp` are the globals `agent` and `mcp_context_manager`
(identified by numeric ids).  `alive` lists the ids of tool-provider
resources that have been allocated by a successful connect and not yet
released (modelled from the spec: connect allocates an OS-level resource,
release frees it).  `nextHandle` is the id source.  `connectCalls`,
`listCalls` and `agentsCreated` count the successful connects, the
tool-enumeration calls, and the `Agent(...)` constructions performed so
far. -/
structure AgentState where
  agent : Option Nat
  mcp : Option Nat
  nextHandle : Nat
  alive : List Nat
  connectCalls : Nat
  listCalls : Nat
  agentsCreated : Nat
deriving DecidableEq, Repr

/-- Process start: both globals are `None`, no resource allocated. -/
def initState : AgentState :=
  { agent := none, mcp := none, nextHandle := 0, alive := [],
    connectCalls := 0, listCalls := 0, agentsCreated := 0 }

/-- Embedding of `initialize_agent` (my_agent.py lines 24-41).  Returns the
agent (or the propagated exception) together with the updated module state.

Faithful to the source: the `if agent is None` guard, then
`mcp_context_manager = stdio_mcp_client.__enter__()`, then
`tools = stdio_mcp_client.list_tools_sync()`, then
`agent = Agent(model=..., tools=tools)`.  There is no exception handler:
a raise propagates with whatever global updates already happened (in
particular `mcp_context_manager` keeps the entered context after a
`list_tools_sync` failure). -/
def initialize_agent (env : InitOutcome) (s : AgentState) :
    Except InitError Nat × AgentState :=
  match s.agent with
  | some a => (.ok a, s)
  | none =>
    match env with
    | .connectFail => (.error .providerUnavailable, s)
    | .listFail =>
        let h := s.nextHandle
        let s1 : AgentState :=
          { s with mcp := some h, alive := s.alive ++ [h], nextHandle := h + 1,
                   connectCalls := s.connectCalls + 1, listCalls := s.listCalls + 1 }
        (.error .protocolError, s1)
    | .ok =>
        let h := s.nextHandle
        let s1 : AgentState :=
          { s with mcp := some h, alive := s.alive ++ [h], nextHandle := h + 1,
                   connectCalls := s.connectCalls + 1, listCalls := s.listCalls + 1 }
        let s2 : AgentState :=
          { s1 with agent := some h, agentsCreated := s1.agentsCreated + 1 }
        (.ok h, s2)

/-- A cooperatively scheduled sequence of `initialize_agent` calls: each
call is atomic (the Python function contains no `await`), so any
interleaving of concurrent requests is some total order of whole calls.
Returns each call's result and the final state. -/
def runInits : List InitOutcome → AgentState → List (Except InitError Nat) × AgentState
  | [], s => ([], s)
  | e :: es, s =>
      let p := initialize_agent e s
      let q := runInits es p.2
      (p.1 :: q.1, q.2)

/-- JSON-like values, the payload and event contents handled by the
entrypoint. -/
inductive JsonVal where
  | null
  | bool (b : Bool)
  | num (n : Int)
  | str (s : String)
deriving DecidableEq, Repr

/-- A JSON-like object (Python dict): association list of string keys.
Keys are unique in any dict obtained from a JSON payload. -/
def JsonObj : Type := List (String × JsonVal)

instance : DecidableEq JsonObj := by
  unfold JsonObj
  infer_instance

/-- Embedding of Python `d.get(k, default)` on a dict: the stored value
when the key is present (even if that value is `None` or empty), the
default otherwise. -/
def dictGet (d : JsonObj) (k : String) (default : JsonVal) : JsonVal :=
  match List.lookup k d with
  | some v => v
  | none => default

/-- Embedding of Python `"event" in event` on a dict: key membership. -/
def hasEventField (u : JsonObj) : Bool :=
  u.any (fun kv => kv.1 == "event")

/-- The fixed fallback prompt string of my_agent.py line 52. -/
def fallbackPrompt : String :=
  "No prompt found in input, please guide customer to create a json payload with prompt key"

/-- Embedding of the entrypoint `invoke` (my_agent.py lines 43-59).

`stream_async` is the agent's streaming generation, external to this core:
given the agent id and the resolved prompt it produces the finite sequence
of raw generation units.  The result is the sequence of units yielded to
the caller paired with the error, if any, that aborted the request, plus
the updated module state.

Faithful to the source: `current_agent = initialize_agent()` (a raise
there aborts the request before any yield), then
`user_prompt = payload.get("prompt", <fallback>)`, then
`async for event in current_agent.stream_async(user_prompt): if "event" in
event: yield event`. -/
def invoke (env : InitOutcome) (s : AgentState) (payload : JsonObj)
    (stream_async : Nat → JsonVal → List JsonObj) :
    (List JsonObj × Option InitError) × AgentState :=
  match initialize_agent env s with
  | (.error e, s1) => (([], some e), s1)
  | (.ok current_agent, s1) =>
      let user_prompt := dictGet payload "prompt" (.str fallbackPrompt)
      let agent_stream := stream_async current_agent user_prompt
      ((agent_stream.filter hasEventField, none), s1)

/-- Embedding of the shutdown path (my_agent.py lines 61-67): in the
`finally` block, iff `mcp_context_manager is not None`, the MCP context is
exited.  Release is modelled from the spec's ToolProviderHandle contract:
it frees the resource the client currently references and is idempotent
(releasing an already-released resource is a no-op, not an error); the
function is total, so the path itself never fails. -/
def shutdown_cleanup (s : AgentState) : AgentState :=
  match s.mcp with
  | none => s
  | some h => { s with alive := s.alive.filter (fun x => x ≠ h) }

/-- Helper: when the agent slot is already filled, `initialize_agent`
returns the stored agent and leaves the state untouched, whatever the
external environment would do (no external call is made). -/
theorem initialize_agent_of_some (env : InitOutcome) (s : AgentState) (a : Nat)
    (h : s.agent = some a) : initialize_agent env s = (.ok a, s) := by
  unfold initialize_agent
  rw [h]

/-- Helper: a whole schedule of calls against a state whose agent slot is
filled returns that agent to every caller and never changes the state. -/
theorem runInits_of_some (es : List InitOutcome) (s : AgentState) (a : Nat)
    (h : s.agent = some a) :
    runInits es s = (List.replicate es.length (.ok a), s) := by
  induction es with
  | nil => simp [runInits]
  | cons e es ih =>
      simp [runInits, initialize_agent_of_some e s a h, ih, List.replicate_succ]

/-- C1: for N concurrent first-time invocations (each `initialize_agent`
call is atomic under cooperative scheduling, so any interleaving is a
schedule of N whole calls against the fresh process state), the tool
provider is connected exactly once, tools are enumerated exactly once,
exactly one AgentInstance is created, and every one of the N requests
observes that same instance. -/
theorem single_construction (n : Nat) (h : 0 < n) :
    (runInits (List.replicate n .ok) initState).2.connectCalls = 1 ∧
    (runInits (List.replicate n .ok) initState).2.listCalls = 1 ∧
    (runInits (List.replicate n .ok) initState).2.agentsCreated = 1 ∧
    (runInits (List.replicate n .ok) initState).2.agent = some 0 ∧
    (runInits (List.replicate n .ok) initState).1 = List.replicate n (.ok 0) := by
  cases n with
  | zero => exact absurd h (lt_irrefl 0)
  | succ m =>
    have h1 : initialize_agent .ok initState =
        (.ok 0, ⟨some 0, some 0, 1, [0], 1, 1, 1⟩) := rfl
    have h2 : runInits (List.replicate m .ok)
        (⟨some 0, some 0, 1, [0], 1, 1, 1⟩ : AgentState) =
        (List.replicate m (.ok 0), ⟨some 0, some 0, 1, [0], 1, 1, 1⟩) := by
      simpa using runInits_of_some (List.replicate m .ok) _ 0 rfl
    simp [List.replicate_succ, runInits, h1, h2]

/-- Witness for C1 at N = 3. -/
theorem single_construction_witness :
    0 < 3 ∧ (runInits (List.replicate 3 .ok) initState).2.connectCalls = 1 ∧
    (runInits (List.replicate 3 .ok) initState).1 = List.replicate 3 (.ok 0) :=
  ⟨by decide, (single_construction 3 (by decide)).1,
    (single_construction 3 (by decide)).2.2.2.2⟩

/-- C4: once construction has succeeded (the shared slot holds an agent),
every subsequent `initialize_agent` call returns that same instance with
the state — in particular the connect and tool-enumeration counters —
completely unchanged. -/
theorem idempotent_reuse (env : InitOutcome) (s : AgentState) (a : Nat)
    (h : s.agent = some a) :
    initialize_agent env s = (.ok a, s) ∧
    (initialize_agent env s).2.connectCalls = s.connectCalls ∧
    (initialize_agent env s).2.listCalls = s.listCalls := by
  have he := initialize_agent_of_some env s a h
  exact ⟨he, by rw [he], by rw [he]⟩

/-- Witness for C4: after one successful construction, a later call whose
environment would fail the connect still returns the stored agent
unchanged — no external call occurs. -/
theorem idempotent_reuse_witness :
    initialize_agent .connectFail (runInits [.ok] initState).2 =
      (.ok 0, (runInits [.ok] initState).2) :=
  (idempotent_reuse .connectFail (runInits [.ok] initState).2 0 rfl).1

/-- C6: whenever a construction attempt fails (the connect raises, or the
tool enumeration raises), the shared agent slot is left exactly as it was
— no AgentInstance is stored — and the exception propagates to the caller
as an error result; there is no handler in `initialize_agent`. -/
theorem construction_failure_no_store (env : InitOutcome) (s : AgentState)
    (hf : env ≠ .ok) (h : s.agent = none) :
    (initialize_agent env s).2.agent = s.agent ∧
    (∃ e, (initialize_agent env s).1 = .error e) ∧
    (env = .connectFail →
      initialize_agent env s = (.error .providerUnavailable, s)) ∧
    (env = .listFail → (initialize_agent env s).1 = .error .protocolError) := by
  cases env with
  | connectFail => simp [initialize_agent, h]
  | listFail => simp [initialize_agent, h]
  | ok => exact absurd rfl hf

/-- Witness for C6: a connect failure against the fresh process state. -/
theorem construction_failure_no_store_witness :
    (initialize_agent .connectFail initState).2.agent = initState.agent ∧
    ∃ e, (initialize_agent .connectFail initState).1 = .error e :=
  ⟨(construction_failure_no_store .connectFail initState (by decide) rfl).1,
    (construction_failure_no_store .connectFail initState (by decide) rfl).2.1⟩

/-- C9: after a failed construction attempt the shared slot is still
empty, so a subsequent invocation's already-exists check finds no stored
agent and re-runs the construction sequence from scratch: it performs a
fresh connect and a fresh enumeration, creates an agent and returns it —
no permanent-failure state is recorded and nothing blocks. -/
theorem retry_after_failure (envFail : InitOutcome) (s : AgentState)
    (hf : envFail ≠ .ok) (h : s.agent = none) :
    ((initialize_agent envFail s).2).agent = none ∧
    (initialize_agent .ok (initialize_agent envFail s).2).1 =
      .ok ((initialize_agent envFail s).2).nextHandle ∧
    ((initialize_agent .ok (initialize_agent envFail s).2).2).connectCalls =
      ((initialize_agent envFail s).2).connectCalls + 1 ∧
    ((initialize_agent .ok (initialize_agent envFail s).2).2).listCalls =
      ((initialize_agent envFail s).2).listCalls + 1 ∧
    ((initialize_agent .ok (initialize_agent envFail s).2).2).agent =
      some ((initialize_agent envFail s).2).nextHandle := by
  cases envFail with
  | connectFail => simp [initialize_agent, h]
  | listFail => simp [initialize_agent, h]
  | ok => exact absurd rfl hf

/-- Witness for C9: enumeration failure on the first attempt, successful
retry. -/
theorem retry_after_failure_witness :
    ((initialize_agent .listFail initState).2).agent = none ∧
    (initialize_agent .ok (initialize_agent .listFail initState).2).1 =
      .ok ((initialize_agent .listFail initState).2).nextHandle :=
  ⟨(retry_after_failure .listFail initState (by decide) rfl).1,
    (retry_after_failure .listFail initState (by decide) rfl).2.1⟩

/-- C5 fails on the code: after a construction attempt in which the
connect succeeded and the tool enumeration raised, the entered MCP context
is never exited (`initialize_agent` has no cleanup path), and a retry
enters the client again, so after the retry two tool-provider resources
are simultaneously allocated and unreleased — more than the one connected
ToolProviderHandle the claim allows. -/
theorem duplicate_connection_after_retry :
    (runInits [.listFail, .ok] initState).2.alive = [0, 1] ∧
    (runInits [.listFail, .ok] initState).2.alive.length = 2 ∧
    1 < (runInits [.listFail, .ok] initState).2.alive.length := by
  decide

/-- C7: when the lazy initialization of a request fails, the request's
outbound sequence aborts before any generation unit is produced: zero
units are yielded and the initialization error is surfaced to the caller. -/
theorem init_failure_aborts_stream (env : InitOutcome) (s : AgentState)
    (payload : JsonObj) (stream_async : Nat → JsonVal → List JsonObj)
    (hf : env ≠ .ok) (h : s.agent = none) :
    (invoke env s payload stream_async).1.1 = [] ∧
    ∃ e, (invoke env s payload stream_async).1.2 = some e := by
  cases env with
  | connectFail => simp [invoke, initialize_agent, h]
  | listFail => simp [invoke, initialize_agent, h]
  | ok => exact absurd rfl hf

/-- Witness for C7: a connect failure on a fresh process, with a
generation that would yield events had it ever been invoked. -/
theorem init_failure_aborts_stream_witness :
    (invoke .connectFail initState [("prompt", .str "hi")]
      (fun _ _ => [[("event", .str "a")]])).1.1 = [] ∧
    ∃ e, (invoke .connectFail initState [("prompt", .str "hi")]
      (fun _ _ => [[("event", .str "a")]])).1.2 = some e :=
  init_failure_aborts_stream .connectFail initState [("prompt", .str "hi")]
    (fun _ _ => [[("event", .str "a")]]) (by decide) rfl

/-- C2: the outbound stream of a request is exactly the subsequence of the
agent's generation units that contain an "event" field, in arrival order,
with the other units silently dropped; in particular the synthetic
sequence of the spec yields exactly its two event-carrying units in
order. -/
theorem event_filtering (env : InitOutcome) (s : AgentState) (a : Nat)
    (payload : JsonObj) (units : List JsonObj) (h : s.agent = some a) :
    ((invoke env s payload (fun _ _ => units)).1.1 = units.filter hasEventField ∧
     (invoke env s payload (fun _ _ => units)).1.1.Sublist units ∧
     (∀ u ∈ (invoke env s payload (fun _ _ => units)).1.1, hasEventField u = true) ∧
     (∀ u ∈ units, hasEventField u = true →
        u ∈ (invoke env s payload (fun _ _ => units)).1.1)) ∧
    (invoke .ok initState [] (fun _ _ =>
      [[("x", .num 1)], [("event", .str "a")], [("event", .str "b")], [("y", .num 2)]])).1.1
      = [[("event", .str "a")], [("event", .str "b")]] := by
  have he : (invoke env s payload (fun _ _ => units)).1.1 = units.filter hasEventField := by
    simp [invoke, initialize_agent_of_some env s a h]
  refine ⟨⟨he, ?_, ?_, ?_⟩, by decide⟩
  · rw [he]; exact List.filter_sublist units
  · rw [he]; intro u hu; exact List.of_mem_filter hu
  · rw [he]; intro u hu hev; exact List.mem_filter.mpr ⟨hu, hev⟩

/-- Witness for C2: the spec's synthetic generation sequence against a
constructed agent. -/
theorem event_filtering_witness :
    (invoke .ok initState [] (fun _ _ =>
      [[("x", .num 1)], [("event", .str "a")], [("event", .str "b")], [("y", .num 2)]])).1.1
      = [[("event", .str "a")], [("event", .str "b")]] :=
  (event_filtering .ok (runInits [.ok] initState).2 0 [] [] rfl).2

/-- C3: when the inbound payload has no "prompt" key, the agent's
streaming generation is invoked with the fixed fallback string — which is
not the empty string — and no error is raised; when the payload does have
a "prompt" key, the generation is invoked with that value. -/
theorem fallback_prompt_used (env : InitOutcome) (s : AgentState) (a : Nat)
    (payload : JsonObj) (stream_async : Nat → JsonVal → List JsonObj)
    (h : s.agent = some a) :
    (List.lookup "prompt" payload = none →
      (invoke env s payload stream_async).1 =
        ((stream_async a (.str fallbackPrompt)).filter hasEventField, none)) ∧
    (∀ v, List.lookup "prompt" payload = some v →
      (invoke env s payload stream_async).1 =
        ((stream_async a v).filter hasEventField, none)) ∧
    fallbackPrompt ≠ "" := by
  refine ⟨?_, ?_, by decide⟩
  · intro hp
    simp [invoke, initialize_agent_of_some env s a h, dictGet, hp]
  · intro v hp
    simp [invoke, initialize_agent_of_some env s a h, dictGet, hp]

/-- Witness for C3: the empty payload against a constructed agent, with a
generation that echoes its prompt, yields the fallback text and no
error. -/
theorem fallback_prompt_used_witness :
    (invoke .ok (runInits [.ok] initState).2 []
      (fun _ p => [[("event", p)]])).1 =
      ([[("event", .str fallbackPrompt)]], none) := by
  have h := (fallback_prompt_used .ok (runInits [.ok] initState).2 0 []
    (fun _ p => [[("event", p)]]) rfl).1 rfl
  simpa [hasEventField] using h

/-- C10: whenever the "prompt" key is present in the payload — with any
value, including null or the empty string — `payload.get` returns the
stored value, and the agent's streaming generation is invoked with that
value unchanged rather than with the fallback substitution. -/
theorem present_prompt_passthrough (env : InitOutcome) (s : AgentState) (a : Nat)
    (payload : JsonObj) (v : JsonVal) (stream_async : Nat → JsonVal → List JsonObj)
    (h : s.agent = some a) (hp : List.lookup "prompt" payload = some v) :
    dictGet payload "prompt" (.str fallbackPrompt) = v ∧
    (invoke env s payload stream_async).1 =
      ((stream_async a v).filter hasEventField, none) := by
  constructor
  · simp [dictGet, hp]
  · simp [invoke, initialize_agent_of_some env s a h, dictGet, hp]

/-- Witness for C10: the payload carrying `"prompt": null`, with an
echoing generation — the agent receives null, not the fallback string. -/
theorem present_prompt_passthrough_witness :
    (invoke .ok (runInits [.ok] initState).2 [("prompt", JsonVal.null)]
      (fun _ p => [[("event", p)]])).1 = ([[("event", JsonVal.null)]], none) := by
  have h := (present_prompt_passthrough .ok (runInits [.ok] initState).2 0
    [("prompt", JsonVal.null)] JsonVal.null (fun _ p => [[("event", p)]]) rfl rfl).2
  simpa [hasEventField] using h

/-- C8: the shutdown path releases the tool-provider resource referenced
by `mcp_context_manager` exactly when one was recorded: on a process where
initialization never occurred it is a no-op (and, being total, cannot
fail); when a context was entered, its resource is no longer allocated
afterwards; and running the path twice is the same as running it once, so
no resource is double-released. -/
theorem shutdown_release_semantics (s : AgentState) (h : Nat) :
    shutdown_cleanup initState = initState ∧
    (s.mcp = none → shutdown_cleanup s = s) ∧
    (s.mcp = some h → h ∉ (shutdown_cleanup s).alive) ∧
    shutdown_cleanup (shutdown_cleanup s) = shutdown_cleanup s := by
  refine ⟨rfl, ?_, ?_, ?_⟩
  · intro hm
    simp [shutdown_cleanup, hm]
  · intro hm
    simp [shutdown_cleanup, hm, List.mem_filter]
  · cases hm : s.mcp with
    | none => simp [shutdown_cleanup, hm]
    | some h0 => simp [shutdown_cleanup, hm, List.filter_filter]

/-- Witness for C8: shutdown on the fresh process is a no-op, and after a
successful construction the entered context's resource is released. -/
theorem shutdown_release_semantics_witness :
    shutdown_cleanup initState = initState ∧
    0 ∉ (shutdown_cleanup (runInits [.ok] initState).2).alive :=
  ⟨(shutdown_release_semantics initState 0).1,
    (shutdown_release_semantics (runInits [.ok] initState).2 0).2.2.1 rfl⟩
